import Mathlib

/-!
# Verification of the Big Sky catalog build pipeline

Shallow embedding of `build.py` (the catalog build script) together with a
model of the catalog engine it drives (`Catalog.build`, `Star.all`,
`Star.get`, the healpix spatial indexer).  The engine itself lives in the
external `starplot` library, so those parts are modelled from the design
specification; everything that is in `build.py` (the `stars` generator, its
filter, the `pk` counter, the field defaults, the assertions after a build)
is translated directly from the source.

Numbers: Python float values are modelled as `ℚ`; the claims under study
only involve order comparisons and exact literals, never float rounding.
A nullable numeric dataframe column after `pd.read_csv` holds float64
values in which a missing cell is the float NaN — never Python `None` — and
NaN is truthy, so the `or 0` idiom of the source does not replace it.  The
rate columns, whose missing-value representation matters to the claims, are
therefore modelled as `PyFloat` (a number or an explicit NaN marker);
nullable columns that are only carried through untouched (`hip`, `bv`,
`parallax_mas`) are modelled as `Option`, since no claim depends on how
their missing cells are represented.
-/

namespace BigSky

/-- A float64 value of a nullable numeric dataframe column after
`pd.read_csv`: either a number, or the float NaN that pandas stores for a
missing (empty) cell.  Python `None` cannot occur in such a column. -/
inductive PyFloat
  | nan
  | num (v : ℚ)
deriving DecidableEq

/-- Python truthiness of a float: only `0.0` is falsy; every other float,
NaN included, is truthy. -/
def PyFloat.isTruthy : PyFloat → Bool
  | .nan => true
  | .num v => decide (v ≠ 0)

/-- Python `x or 0` applied to a float field (build.py lines 105-106):
returns `x` unchanged when `x` is truthy — in particular a NaN
missing-value marker stays NaN — and `0` when `x` is falsy (`0.0`). -/
def pyOrZero (x : PyFloat) : PyFloat :=
  if x.isTruthy then x else .num 0

/-- One row of the source dataframe after the `read_csv`/`rename`/`assign`
transform in `build_magnitude` (build.py lines 53-80).  The geometry flags
record what shapely `Point(ra, dec).is_valid` / `.is_empty` return for the
row; shapely is external to the repository, so the flags are carried as
input data.  The rate columns are `PyFloat`: a missing cell is a NaN. -/
structure InputStar where
  hip : Option Int
  tyc : String
  ccdm : String
  magnitude : ℚ
  bv : Option ℚ
  ra : ℚ
  dec : ℚ
  ra_mas_per_year : PyFloat
  dec_mas_per_year : PyFloat
  parallax_mas : Option ℚ
  constellation_id : String
  geom_is_valid : Bool
  geom_is_empty : Bool
deriving DecidableEq

/-- The record type yielded by the `stars` generator (build.py lines 95-110):
every schema field is present and typed; the rate fields are the result of
the `or 0` idiom, which keeps them floats — a NaN missing-value marker can
survive it (NaN is truthy), so the field type still admits NaN. -/
structure Star where
  pk : ℕ
  hip : Option Int
  tyc : String
  ra : ℚ
  dec : ℚ
  constellation_id : String
  ccdm : String
  magnitude : ℚ
  parallax_mas : Option ℚ
  ra_mas_per_year : PyFloat
  dec_mas_per_year : PyFloat
  bv : Option ℚ
  geometry : ℚ × ℚ
  epoch_year : Int
deriving DecidableEq

/-- The rejection test of the `stars` generator (build.py lines 87-92): a row
is skipped when its geometry is invalid, or empty, or its magnitude is
strictly above the limiting magnitude. -/
def rejects (limiting_magnitude : ℚ) (s : InputStar) : Bool :=
  !s.geom_is_valid || s.geom_is_empty || decide (s.magnitude > limiting_magnitude)

/-- A row passes the filter iff it is not rejected. -/
def accepts (limiting_magnitude : ℚ) (s : InputStar) : Bool :=
  !(rejects limiting_magnitude s)

/-- Construction of the yielded `Star` from an accepted row and the current
counter value (build.py lines 95-110). -/
def mkStar (ctr : ℕ) (star : InputStar) : Star where
  pk := ctr
  hip := star.hip
  tyc := star.tyc
  ra := star.ra
  dec := star.dec
  constellation_id := star.constellation_id
  ccdm := star.ccdm
  magnitude := star.magnitude
  parallax_mas := star.parallax_mas
  ra_mas_per_year := pyOrZero star.ra_mas_per_year
  dec_mas_per_year := pyOrZero star.dec_mas_per_year
  bv := star.bv
  geometry := (star.ra, star.dec)
  epoch_year := 2000

/-- The loop body of the `stars` generator (build.py lines 82-110) with the
counter made explicit: rejected rows are skipped without touching `ctr`;
accepted rows increment `ctr` and are yielded with `pk = ctr`. -/
def starsAux (limiting_magnitude : ℚ) (ctr : ℕ) : List InputStar → List Star
  | [] => []
  | s :: rest =>
    if rejects limiting_magnitude s then
      starsAux limiting_magnitude ctr rest
    else
      mkStar (ctr + 1) s :: starsAux limiting_magnitude (ctr + 1) rest

/-- The `stars` generator (build.py line 82): counter starts at 0. -/
def stars (limiting_magnitude : ℚ) (d : List InputStar) : List Star :=
  starsAux limiting_magnitude 0 d

theorem starsAux_eq (limiting_magnitude : ℚ) (ctr : ℕ) (d : List InputStar) :
    starsAux limiting_magnitude ctr d =
      (List.enumFrom (ctr + 1) (d.filter (accepts limiting_magnitude))).map
        (fun p => mkStar p.1 p.2) := by
  induction d generalizing ctr with
  | nil => simp [starsAux]
  | cons s rest ih =>
    by_cases h : rejects limiting_magnitude s = true
    · simp [starsAux, h, List.filter_cons, accepts, ih]
    · simp [starsAux, h, List.filter_cons, accepts, List.enumFrom_cons, ih]

theorem stars_eq (limiting_magnitude : ℚ) (d : List InputStar) :
    stars limiting_magnitude d =
      (List.enumFrom 1 (d.filter (accepts limiting_magnitude))).map
        (fun p => mkStar p.1 p.2) :=
  starsAux_eq limiting_magnitude 0 d

theorem enumFrom_map_fst (n : ℕ) {α : Type _} (l : List α) :
    (List.enumFrom n l).map Prod.fst = List.range' n l.length := by
  induction l generalizing n with
  | nil => simp
  | cons x xs ih => simp [List.enumFrom_cons, List.range', ih]

/-- C1: records failing the filter are never assigned a `pk` and never appear
downstream, and the `n`th accepted record receives `pk = n`: the output of
the `stars` generator is exactly the accepted sub-stream numbered
consecutively from 1, so the `pk` values over the accepted stream are
`1, 2, ..., k` — 1-based, strictly increasing and contiguous — no matter how
many rows were rejected in between. -/
theorem stars_pk_dense (limiting_magnitude : ℚ) (d : List InputStar) :
    stars limiting_magnitude d =
      (List.enumFrom 1 (d.filter (accepts limiting_magnitude))).map
        (fun p => mkStar p.1 p.2) ∧
    (stars limiting_magnitude d).map Star.pk =
      List.range' 1 (d.filter (accepts limiting_magnitude)).length := by
  refine ⟨stars_eq limiting_magnitude d, ?_⟩
  rw [stars_eq, List.map_map]
  have : (fun p : ℕ × InputStar => (mkStar p.1 p.2).pk) = Prod.fst := by
    funext p
    rfl
  rw [show Star.pk ∘ (fun p : ℕ × InputStar => mkStar p.1 p.2) = Prod.fst from this]
  rw [enumFrom_map_fst]

/-! ## Spatial indexer (modelled from the spec)

The healpix implementation is external to the repository (the `starplot`
catalog engine computes the `healpix_index` sorting column); only the call
`Catalog(path=..., healpix_nside=4)` appears in `build.py` (line 112). -/

/-- Record-level error of the indexer (spec §4.1/§7). -/
inductive IndexError
  | invalidCoordinate
deriving DecidableEq

/-- Modelled from the spec: the underlying deterministic cell computation of
the Spatial Indexer — a pure discretization of the sphere into cells at
resolution `nside`, used as a sort/locality key.  The concrete healpix
formula is external to the repository; any fixed deterministic function of
`(ra, dec, nside)` realizes the contract of spec §4.1. -/
def cellOf (nside : ℕ) (ra dec : ℚ) : ℕ :=
  (Rat.floor ((90 - dec) * nside / 180)).toNat * (4 * nside) +
    (Rat.floor (ra * nside / 90)).toNat

/-- The valid coordinate domain of the indexer (spec §4.1):
`ra ∈ [0, 360)`, `dec ∈ [-90, 90]`. -/
def validCoord (ra dec : ℚ) : Prop :=
  0 ≤ ra ∧ ra < 360 ∧ -90 ≤ dec ∧ dec ≤ 90

instance (ra dec : ℚ) : Decidable (validCoord ra dec) := by
  unfold validCoord
  infer_instance

/-- Modelled from the spec: the Spatial Indexer contract of §4.1,
`index(ra, dec, resolution) -> spatial_cell_id`, total on the valid domain
and reporting `InvalidCoordinate` outside it. -/
def index (nside : ℕ) (ra dec : ℚ) : Except IndexError ℕ :=
  if validCoord ra dec then .ok (cellOf nside ra dec) else .error .invalidCoordinate

/-! ## Catalog engine (modelled from the spec)

`Catalog.build`, `Star.all` and `Star.get` are `starplot` library calls
(build.py lines 112-143); their behavior is modelled from spec §4.2-§4.4:
the pipeline attaches the spatial index to each accepted record, sorts by
the composite key (magnitude, healpix_index, with `pk` as final tie-break)
and the writer splits the sorted stream into row groups of at most
`row_group_size` records carrying min/max statistics of the sort key. -/

/-- An on-disk record: the written `Star` plus the engine-computed
`healpix_index` sorting column. -/
structure StoredStar where
  star : Star
  healpix_index : ℕ
deriving DecidableEq

/-- Modelled from the spec: the pipeline computes the spatial cell of each
accepted record from its own `(ra, dec)` at the build resolution (§4.2). -/
def attachIndex (nside : ℕ) (s : Star) : StoredStar :=
  ⟨s, cellOf nside s.ra s.dec⟩

/-- Modelled from the spec: the composite ordering key of §4.2 —
primary `magnitude` ascending, secondary spatial cell id ascending, final
tie-break `pk` ascending (a deterministic total order). -/
def keyLe (a b : StoredStar) : Prop :=
  a.star.magnitude < b.star.magnitude ∨
    (a.star.magnitude = b.star.magnitude ∧
      (a.healpix_index < b.healpix_index ∨
        (a.healpix_index = b.healpix_index ∧ a.star.pk ≤ b.star.pk)))

instance : DecidableRel keyLe := by
  unfold keyLe
  infer_instance

instance : IsTotal StoredStar keyLe := by
  constructor
  intro a b
  rcases lt_trichotomy a.star.magnitude b.star.magnitude with h | h | h
  · exact Or.inl (Or.inl h)
  · rcases Nat.lt_trichotomy a.healpix_index b.healpix_index with h2 | h2 | h2
    · exact Or.inl (Or.inr ⟨h, Or.inl h2⟩)
    · rcases Nat.le_total a.star.pk b.star.pk with h3 | h3
      · exact Or.inl (Or.inr ⟨h, Or.inr ⟨h2, h3⟩⟩)
      · exact Or.inr (Or.inr ⟨h.symm, Or.inr ⟨h2.symm, h3⟩⟩)
    · exact Or.inr (Or.inr ⟨h.symm, Or.inl h2⟩)
  · exact Or.inr (Or.inl h)

instance : IsTrans StoredStar keyLe := by
  constructor
  intro a b c hab hbc
  rcases hab with hab | ⟨hab, hab2⟩
  · rcases hbc with hbc | ⟨hbc, _⟩
    · exact Or.inl (hab.trans hbc)
    · exact Or.inl (hbc ▸ hab)
  · rcases hbc with hbc | ⟨hbc, hbc2⟩
    · exact Or.inl (hab ▸ hbc)
    · refine Or.inr ⟨hab.trans hbc, ?_⟩
      rcases hab2 with h2 | ⟨h2, h3⟩
      · rcases hbc2 with h4 | ⟨h4, _⟩
        · exact Or.inl (h2.trans h4)
        · exact Or.inl (h4 ▸ h2)
      · rcases hbc2 with h4 | ⟨h4, h5⟩
        · exact Or.inl (h2 ▸ h4)
        · exact Or.inr ⟨h2.trans h4, h3.trans h5⟩

/-- The Catalog Store: build resolution, writer row-group size, and the
sorted sequence of on-disk records (spec §4.3-§4.4; partitioning is trivial
here because `build.py` passes `partition_columns=[]`, so all row groups
land in a single physical unit). -/
structure Catalog where
  healpix_nside : ℕ
  row_group_size : ℕ
  records : List StoredStar
deriving DecidableEq

/-- Modelled from the spec: `Catalog.build` (build.py line 113) — attach the
spatial index to every accepted record and persist the stream sorted by the
composite ordering key. -/
def Catalog.build (nside rgSize : ℕ) (objects : List Star) : Catalog :=
  ⟨nside, rgSize, List.insertionSort keyLe (objects.map (attachIndex nside))⟩

/-- Modelled from the spec: `Star.all` (build.py line 138) enumerates every
record of the catalog in stored sort order (§4.4). -/
def Star.all (catalog : Catalog) : List StoredStar :=
  catalog.records

/-- Modelled from the spec: `Star.get` locates the first record in stored
sort order satisfying an exact-match predicate (§4.4). -/
def Star.get (catalog : Catalog) (p : StoredStar → Bool) : Option StoredStar :=
  catalog.records.find? p

theorem catalog_build_records (nside rgSize : ℕ) (objects : List Star) :
    (Catalog.build nside rgSize objects).records =
      List.insertionSort keyLe (objects.map (attachIndex nside)) := rfl

theorem catalog_build_perm (nside rgSize : ℕ) (objects : List Star) :
    ((Catalog.build nside rgSize objects).records).Perm
      (objects.map (attachIndex nside)) :=
  List.perm_insertionSort keyLe (objects.map (attachIndex nside))

/-- C2: round-trip — enumerating a built catalog via `all()` yields exactly
the written records (as a permutation: same records, same multiplicities),
each carrying every schema field with the value it was written with;
dropping the engine-computed `healpix_index` column recovers the written
`Star` records of the accepted stream verbatim, zero-defaulted rate fields
included. -/
theorem all_roundtrip (limiting_magnitude : ℚ) (d : List InputStar)
    (nside rgSize : ℕ) :
    ((Star.all (Catalog.build nside rgSize (stars limiting_magnitude d))).map
        StoredStar.star).Perm (stars limiting_magnitude d) := by
  have h1 := (catalog_build_perm nside rgSize (stars limiting_magnitude d)).map
    StoredStar.star
  rw [List.map_map] at h1
  have h2 : StoredStar.star ∘ attachIndex nside = id := by
    funext s
    rfl
  rw [h2, List.map_id] at h1
  exact h1

/-- C7: the spatial indexer is total over the valid coordinate domain
(`ra ∈ [0,360)`, `dec ∈ [-90,90]`) — in-domain input always produces a cell
id — and every out-of-domain input yields the reported `InvalidCoordinate`
error, never a cell id (so no silent clamp; non-termination or crash is
precluded because `index` is a total Lean function). -/
theorem index_total_invalid (nside : ℕ) (ra dec : ℚ) :
    (validCoord ra dec → index nside ra dec = .ok (cellOf nside ra dec)) ∧
    (¬validCoord ra dec → index nside ra dec = .error .invalidCoordinate) := by
  constructor
  · intro h
    simp [index, h]
  · intro h
    simp [index, h]

/-- Witness for C7 at concrete inputs: `(10, 20)` is in-domain and indexed,
`(400, 0)` is out-of-domain and reported as `InvalidCoordinate`. -/
theorem index_total_invalid_witness :
    index 4 10 20 = .ok (cellOf 4 10 20) ∧
    index 4 400 0 = .error .invalidCoordinate :=
  ⟨(index_total_invalid 4 10 20).1 (by decide),
   (index_total_invalid 4 400 0).2 (by decide)⟩

/-- C4: the spatial index is a pure, deterministic function of
`(ra, dec, resolution)` — on the valid domain `index` always returns the
single value `cellOf nside ra dec` (so two computations on the same inputs
agree) — and for every record of a built catalog, recomputing the cell from
the stored coordinates of the record reproduces the stored `healpix_index`
exactly. -/
theorem index_deterministic (nside : ℕ) (ra dec : ℚ) (h : validCoord ra dec) :
    index nside ra dec = .ok (cellOf nside ra dec) ∧
    (∀ (rgSize : ℕ) (objects : List Star) (t : StoredStar),
      t ∈ Star.all (Catalog.build nside rgSize objects) →
        cellOf nside t.star.ra t.star.dec = t.healpix_index) := by
  refine ⟨by simp [index, h], ?_⟩
  intro rgSize objects t ht
  have hmem : t ∈ objects.map (attachIndex nside) :=
    (catalog_build_perm nside rgSize objects).mem_iff.mp ht
  rcases List.mem_map.mp hmem with ⟨s, _, rfl⟩
  rfl

/-- Witness for C4 at a concrete valid coordinate pair. -/
theorem index_deterministic_witness :
    index 4 10 20 = .ok (cellOf 4 10 20) :=
  (index_deterministic 4 10 20 (by decide)).1

/-! ## Columnar writer: row groups and statistics (modelled from the spec)

Spec §4.3: the writer splits the sorted stream into row groups of at most
`row_group_size` records, each storing min/max statistics over the
designated `sorting_columns` (`["magnitude", "healpix_index"]` in
build.py line 133). -/

/-- Worker for `chunksOf`, structurally recursive on a fuel argument so that
it evaluates by kernel reduction; with `fuel ≥ l.length` and `n ≥ 1` the
fuel never runs out before the list is exhausted. -/
def chunksOfAux {α : Type _} (n : ℕ) : ℕ → List α → List (List α)
  | _, [] => []
  | 0, l => [l]
  | fuel + 1, x :: xs =>
    if n = 0 then [x :: xs]
    else (List.take n (x :: xs)) :: chunksOfAux n fuel (List.drop n (x :: xs))

/-- Split a list into consecutive chunks of `n` elements (the last one may
be shorter).  A degenerate size of `0` keeps everything in one group. -/
def chunksOf {α : Type _} (n : ℕ) (l : List α) : List (List α) :=
  chunksOfAux n l.length l

/-- Modelled from the spec: the ordered sequence of row groups of the single
partition of a catalog (§4.3; `partition_columns=[]`). -/
def rowGroups (catalog : Catalog) : List (List StoredStar) :=
  chunksOf catalog.row_group_size catalog.records

/-- The composite sort key recorded in the row-group statistics: the
`sorting_columns` values `(magnitude, healpix_index)` of a record. -/
def sortKey (t : StoredStar) : ℚ × ℕ :=
  (t.star.magnitude, t.healpix_index)

/-- Lexicographic order on sort keys: magnitude ascending, then spatial cell
ascending. -/
def skLe (a b : ℚ × ℕ) : Prop :=
  a.1 < b.1 ∨ (a.1 = b.1 ∧ a.2 ≤ b.2)

instance : DecidableRel skLe := by
  unfold skLe
  infer_instance

/-- Binary minimum for sort keys. -/
def skMin (a b : ℚ × ℕ) : ℚ × ℕ :=
  if skLe a b then a else b

/-- Binary maximum for sort keys. -/
def skMax (a b : ℚ × ℕ) : ℚ × ℕ :=
  if skLe a b then b else a

/-- The minimum-sort-key statistic a row group stores (spec §4.3);
`none` only for an empty group. -/
def groupMinKey (g : List StoredStar) : Option (ℚ × ℕ) :=
  match g.map sortKey with
  | [] => none
  | k :: ks => some (ks.foldl skMin k)

/-- The maximum-sort-key statistic a row group stores (spec §4.3);
`none` only for an empty group. -/
def groupMaxKey (g : List StoredStar) : Option (ℚ × ℕ) :=
  match g.map sortKey with
  | [] => none
  | k :: ks => some (ks.foldl skMax k)

theorem chunksOfAux_flatten {α : Type _} (n fuel : ℕ) (l : List α) :
    (chunksOfAux n fuel l).flatten = l := by
  induction fuel generalizing l with
  | zero =>
    cases l with
    | nil => simp [chunksOfAux]
    | cons x xs => simp [chunksOfAux]
  | succ fuel ih =>
    cases l with
    | nil => simp [chunksOfAux]
    | cons x xs =>
      by_cases hn : n = 0
      · simp [chunksOfAux, hn]
      · simp only [chunksOfAux, hn, if_false, List.flatten_cons, ih]
        exact List.take_append_drop n (x :: xs)

theorem chunksOf_flatten {α : Type _} (n : ℕ) (l : List α) :
    (chunksOf n l).flatten = l :=
  chunksOfAux_flatten n l.length l

theorem foldl_mem_of_choice {α : Type _} (f : α → α → α)
    (hf : ∀ a b, f a b = a ∨ f a b = b) (init : α) (l : List α) :
    l.foldl f init = init ∨ l.foldl f init ∈ l := by
  induction l generalizing init with
  | nil => simp
  | cons x xs ih =>
    rcases ih (f init x) with h | h
    · rw [List.foldl_cons, h]
      rcases hf init x with h2 | h2
      · exact Or.inl h2
      · rw [h2]
        exact Or.inr (List.mem_cons_self x xs)
    · exact Or.inr (List.mem_cons_of_mem x h)

theorem groupMinKey_mem (g : List StoredStar) (m : ℚ × ℕ)
    (h : groupMinKey g = some m) : ∃ t ∈ g, sortKey t = m := by
  unfold groupMinKey at h
  rcases hg : g.map sortKey with _ | ⟨k, ks⟩
  · rw [hg] at h
    exact absurd h (by simp)
  · rw [hg] at h
    have hm : ks.foldl skMin k = k ∨ ks.foldl skMin k ∈ ks :=
      foldl_mem_of_choice skMin
        (fun a b => by unfold skMin; split <;> simp) k ks
    simp only [Option.some.injEq] at h
    have : m ∈ g.map sortKey := by
      rw [hg, ← h]
      rcases hm with h2 | h2
      · rw [h2]
        exact List.mem_cons_self k ks
      · exact List.mem_cons_of_mem k h2
    rcases List.mem_map.mp this with ⟨t, ht, hts⟩
    exact ⟨t, ht, hts⟩

theorem groupMaxKey_mem (g : List StoredStar) (m : ℚ × ℕ)
    (h : groupMaxKey g = some m) : ∃ t ∈ g, sortKey t = m := by
  unfold groupMaxKey at h
  rcases hg : g.map sortKey with _ | ⟨k, ks⟩
  · rw [hg] at h
    exact absurd h (by simp)
  · rw [hg] at h
    have hm : ks.foldl skMax k = k ∨ ks.foldl skMax k ∈ ks :=
      foldl_mem_of_choice skMax
        (fun a b => by unfold skMax; split <;> simp) k ks
    simp only [Option.some.injEq] at h
    have : m ∈ g.map sortKey := by
      rw [hg, ← h]
      rcases hm with h2 | h2
      · rw [h2]
        exact List.mem_cons_self k ks
      · exact List.mem_cons_of_mem k h2
    rcases List.mem_map.mp this with ⟨t, ht, hts⟩
    exact ⟨t, ht, hts⟩

theorem keyLe_skLe {a b : StoredStar} (h : keyLe a b) :
    skLe (sortKey a) (sortKey b) := by
  rcases h with h | ⟨h, h2 | ⟨h2, _⟩⟩
  · exact Or.inl h
  · exact Or.inr ⟨h, Nat.le_of_lt h2⟩
  · exact Or.inr ⟨h, Nat.le_of_eq h2⟩

theorem sorted_records (nside rgSize : ℕ) (objects : List Star) :
    List.Pairwise keyLe (Catalog.build nside rgSize objects).records :=
  List.sorted_insertionSort keyLe (objects.map (attachIndex nside))

theorem chunks_pairwise (nside rgSize : ℕ) (objects : List Star) :
    List.Pairwise (fun g₁ g₂ => ∀ a ∈ g₁, ∀ b ∈ g₂, keyLe a b)
      (rowGroups (Catalog.build nside rgSize objects)) := by
  have hs : List.Pairwise keyLe
      (rowGroups (Catalog.build nside rgSize objects)).flatten := by
    rw [rowGroups, chunksOf_flatten]
    exact sorted_records nside rgSize objects
  exact (List.pairwise_flatten.mp hs).2

/-- C5: within the (single) partition of a built catalog, consecutive row
groups never overlap on the composite sort key: the recorded maximum sort
key of row group `i` is at most the recorded minimum sort key of row group
`i + 1`. -/
theorem rowgroups_monotone (nside rgSize : ℕ) (objects : List Star) (i : ℕ)
    (gi gj : List StoredStar) (M m : ℚ × ℕ)
    (hgi : (rowGroups (Catalog.build nside rgSize objects))[i]? = some gi)
    (hgj : (rowGroups (Catalog.build nside rgSize objects))[i + 1]? = some gj)
    (hM : groupMaxKey gi = some M) (hm : groupMinKey gj = some m) :
    skLe M m := by
  rcases List.getElem?_eq_some_iff.mp hgi with ⟨hi, hgi'⟩
  rcases List.getElem?_eq_some_iff.mp hgj with ⟨hj, hgj'⟩
  have hcross := List.pairwise_iff_getElem.mp
    (chunks_pairwise nside rgSize objects) i (i + 1) hi hj (Nat.lt_succ_self i)
  rw [hgi', hgj'] at hcross
  rcases groupMaxKey_mem gi M hM with ⟨a, ha, hak⟩
  rcases groupMinKey_mem gj m hm with ⟨b, hb, hbk⟩
  exact hak ▸ hbk ▸ keyLe_skLe (hcross a ha b hb)

/-! ## Reader: first-match lookup (spec §4.4) -/

theorem find?_first {α : Type _} (p : α → Bool) (l : List α)
    (h : ∃ t ∈ l, p t = true) :
    ∃ t l₁ l₂, l.find? p = some t ∧ p t = true ∧ l = l₁ ++ t :: l₂ ∧
      ∀ u ∈ l₁, p u = false := by
  induction l with
  | nil => simp at h
  | cons x xs ih =>
    by_cases hx : p x = true
    · exact ⟨x, [], xs, by simp [List.find?, hx], hx, rfl, by simp⟩
    · have hxs : ∃ t ∈ xs, p t = true := by
        rcases h with ⟨t, ht, hpt⟩
        rcases List.mem_cons.mp ht with rfl | ht'
        · exact absurd hpt hx
        · exact ⟨t, ht', hpt⟩
      rcases ih hxs with ⟨t, l₁, l₂, hfind, hpt, hsplit, hnone⟩
      refine ⟨t, x :: l₁, l₂, ?_, hpt, by rw [hsplit]; rfl, ?_⟩
      · simp only [List.find?]
        rw [Bool.eq_false_iff.mpr hx]
        exact hfind
      · intro u hu
        rcases List.mem_cons.mp hu with rfl | hu'
        · exact Bool.eq_false_iff.mpr hx
        · exact hnone u hu'

/-- C6: when at least one record of a built store matches an exact-match
predicate, `get` returns exactly one record, namely the first match in
stored sort order (the records before it in the store all fail the
predicate).  Repeated calls trivially agree because `Star.get` is a pure
function of the store and the predicate (the final conjunct records this). -/
theorem get_first_match (catalog : Catalog) (p : StoredStar → Bool)
    (h : ∃ t ∈ Star.all catalog, p t = true) :
    ∃ t l₁ l₂, Star.get catalog p = some t ∧ p t = true ∧
      Star.all catalog = l₁ ++ t :: l₂ ∧ (∀ u ∈ l₁, p u = false) ∧
      Star.get catalog p = Star.get catalog p :=
  match find?_first p catalog.records h with
  | ⟨t, l₁, l₂, hfind, hpt, hsplit, hnone⟩ =>
    ⟨t, l₁, l₂, hfind, hpt, hsplit, hnone, rfl⟩

/-! ## The build driver `build_magnitude` (build.py lines 39-146) -/

/-- Modelled from the spec: the name-lookup table used by
`Star.get(name=...)` — names resolve to the `hip` identifier of the record
("matching a name-lookup table to `hip`", spec §4.4).  Only the one name
exercised by `build.py` is needed. -/
def nameToHip (n : String) : Option Int :=
  if n = "Sirius" then some 32349 else none

/-- Modelled from the spec: `Star.get(name=..., catalog=...)`
(build.py line 143) — resolve the name to a `hip` identifier and return the
first record of the store carrying it. -/
def getByName (catalog : Catalog) (n : String) : Option StoredStar :=
  match nameToHip n with
  | none => none
  | some h => Star.get catalog (fun t => decide (t.star.hip = some h))

/-- Failure of one of the `assert` statements (or of the Sirius lookup) in
`build_magnitude` (build.py lines 141-146). -/
inductive BuildError
  | countMismatch
  | siriusNotFound
  | siriusMismatch
deriving DecidableEq

/-- `build_magnitude` (build.py lines 39-146) with the CSV ingestion
replaced by its result `d` (source-format parsing is out of scope, spec §1):
filter and number the stream with `stars`, build the catalog at
`healpix_nside=4` / `row_group_size=100000`, then run the assertions of the source: the enumerated total equals `expected_count`, and the record
retrieved via `get(name="Sirius")` has magnitude `-1.44`, hip `32349` and
constellation `"cma"`.  The build completes (returns the catalog) only if
every assertion holds. -/
def build_magnitude (limiting_magnitude : ℚ) (expected_count : ℕ)
    (d : List InputStar) : Except BuildError Catalog :=
  let catalog := Catalog.build 4 100000 (stars limiting_magnitude d)
  let all_stars := Star.all catalog
  if all_stars.length ≠ expected_count then .error .countMismatch
  else
    match getByName catalog "Sirius" with
    | none => .error .siriusNotFound
    | some sirius =>
      if sirius.star.magnitude = -1.44 ∧ sirius.star.hip = some 32349 ∧
          sirius.star.constellation_id = "cma" then .ok catalog
      else .error .siriusMismatch

/-- C9: if `build_magnitude` completes successfully, then the catalog it
built answers `get(name="Sirius")` with a record whose magnitude is `-1.44`,
whose hip is `32349` and whose constellation is `"cma"` — the build succeeds
only when these assertions hold. -/
theorem build_sirius_assertions (limiting_magnitude : ℚ) (expected_count : ℕ)
    (d : List InputStar) (catalog : Catalog)
    (h : build_magnitude limiting_magnitude expected_count d = .ok catalog) :
    ∃ t, getByName catalog "Sirius" = some t ∧ t.star.magnitude = -1.44 ∧
      t.star.hip = some 32349 ∧ t.star.constellation_id = "cma" := by
  simp only [build_magnitude, Star.all] at h
  split at h
  · exact absurd h (by simp)
  · rename_i hcount
    split at h
    · exact absurd h (by simp)
    · rename_i sirius hsir
      split at h
      · rename_i hprops
        have hcat : catalog = Catalog.build 4 100000 (stars limiting_magnitude d) := by
          simpa using h.symm
        exact ⟨sirius, hcat ▸ hsir, hprops.1, hprops.2.1, hprops.2.2⟩
      · exact absurd h (by simp)

/-! ## Build reporting (build.py lines 140, 149-163) -/

/-- The values the build writes to its user-visible summary: the accepted
total per catalog (`logger.info(f"Magnitude ... total = {len(all_stars):,}")`,
build.py line 140) and the overall duration (`logger.info(f"Done - ...s")`,
build.py line 163).  Wall-clock duration is external input, passed as a
parameter. -/
structure BuildReport where
  acceptedTotal : ℕ
  durationSecs : ℕ
deriving DecidableEq

/-- The report produced by a build over input `d` at a given limiting
magnitude: exactly the data the source logs. -/
def buildReport (limiting_magnitude : ℚ) (d : List InputStar)
    (durationSecs : ℕ) : BuildReport :=
  ⟨(stars limiting_magnitude d).length, durationSecs⟩

/-- Observer (not part of the source): how many records of `d` the filter
rejects. -/
def rejectedCount (limiting_magnitude : ℚ) (d : List InputStar) : ℕ :=
  (d.filter (fun s => rejects limiting_magnitude s)).length

/-! ## Remaining record-level claims -/

/-- A row both of whose rate cells are missing in the source CSV: after
`pd.read_csv` the dataframe holds the float NaN in those cells. -/
def inNaNRates : InputStar :=
  ⟨some 104, "TYC N", "", 2, none, 70, 80, .nan, .nan, none, "ori", true, false⟩

/-- C3 (evaluating the code at the failing input): for a record whose
rate cells carry no value — a pandas NaN after `read_csv` — the `or 0`
default of build.py lines 105-106 does not fire, because NaN is truthy in
Python: the record emitted by `stars` still carries the NaN missing-value
marker in both rate fields, not `0`.  The claimed zero-default is the
evident intent of `or 0` (and the stated contract of the spec), but the
code only replaces `None`/`0.0`, never the NaN that pandas actually stores
for a missing numeric cell. -/
theorem rate_fields_nan_not_zero :
    (mkStar 1 inNaNRates).ra_mas_per_year = .nan ∧
    (mkStar 1 inNaNRates).dec_mas_per_year = .nan ∧
    (mkStar 1 inNaNRates).ra_mas_per_year ≠ .num 0 ∧
    (mkStar 1 inNaNRates).dec_mas_per_year ≠ .num 0 := by
  refine ⟨rfl, rfl, by decide, by decide⟩

theorem stars_length (limiting_magnitude : ℚ) (d : List InputStar) :
    (stars limiting_magnitude d).length =
      (d.filter (accepts limiting_magnitude)).length := by
  rw [stars_eq]
  simp

/-- C10: a record whose magnitude equals the limiting magnitude exactly is
accepted — the rejection test uses the strict comparison
`magnitude > limiting_magnitude` (build.py line 90), so the ceiling is
inclusive: such a record (with valid, non-empty geometry) passes the filter,
is assigned the next dense `pk`, and is emitted, wherever it sits in the
input stream. -/
theorem boundary_magnitude_accepted (limiting_magnitude : ℚ) (s : InputStar)
    (d₁ d₂ : List InputStar) (hv : s.geom_is_valid = true)
    (he : s.geom_is_empty = false) (hm : s.magnitude = limiting_magnitude) :
    accepts limiting_magnitude s = true ∧
    mkStar ((d₁.filter (accepts limiting_magnitude)).length + 1) s ∈
      stars limiting_magnitude (d₁ ++ s :: d₂) := by
  have hacc : accepts limiting_magnitude s = true := by
    simp [accepts, rejects, hv, he, hm]
  refine ⟨hacc, ?_⟩
  rw [stars_eq, List.filter_append, List.filter_cons, hacc]
  rw [List.enumFrom_append]
  refine List.mem_map.mpr ⟨((d₁.filter (accepts limiting_magnitude)).length + 1, s), ?_, rfl⟩
  refine List.mem_append_right _ ?_
  rw [Nat.add_comm 1 (d₁.filter (accepts limiting_magnitude)).length] at *
  simp [List.enumFrom_cons]

/-- C8 (amended): rejected records are dropped and never affect the build
output or its summary, and the summary reports the accepted total and the
duration — appending any batch of rejected records to the input leaves the
report unchanged, so no rejected count is (or could be) reported. -/
theorem report_accepted_duration (limiting_magnitude : ℚ)
    (d extra : List InputStar) (durationSecs : ℕ)
    (hrej : ∀ s ∈ extra, rejects limiting_magnitude s = true) :
    buildReport limiting_magnitude (d ++ extra) durationSecs =
      buildReport limiting_magnitude d durationSecs ∧
    (buildReport limiting_magnitude d durationSecs).acceptedTotal =
      (stars limiting_magnitude d).length ∧
    (buildReport limiting_magnitude d durationSecs).durationSecs = durationSecs := by
  refine ⟨?_, rfl, rfl⟩
  have hextra : extra.filter (accepts limiting_magnitude) = [] := by
    rw [List.filter_eq_nil_iff]
    intro a ha
    simp [accepts, hrej a ha]
  unfold buildReport
  rw [stars_length, stars_length, List.filter_append, hextra, List.append_nil]

/-! ## Concrete example inputs for the witnesses -/

/-- An accepted example row (integer-valued, magnitude 1). -/
def inA : InputStar :=
  ⟨some 101, "TYC A", "", 1, none, 10, 20, .num 3, .num 4, none, "ori", true, false⟩

/-- A rejected example row at limiting magnitude 9 (magnitude 10). -/
def rejIn : InputStar :=
  ⟨some 102, "TYC R", "", 10, none, 30, 40, .num 1, .num 1, none, "ori", true, false⟩

/-- A boundary example row: magnitude exactly 9. -/
def bIn : InputStar :=
  ⟨some 103, "TYC B", "", 9, none, 50, 60, .num 1, .num 2, none, "ori", true, false⟩

/-- A written example record with magnitude 1. -/
def stA : Star :=
  ⟨1, some 101, "TYC A", 10, 20, "ori", "", 1, none, .num 3, .num 4, none, (10, 20), 2000⟩

/-- A written example record with magnitude 2. -/
def stB : Star :=
  ⟨2, some 102, "TYC B", 30, 40, "ori", "", 2, none, .num 1, .num 2, none, (30, 40), 2000⟩

/-- The Sirius row of the source stream (hip 32349, magnitude -1.44,
constellation "cma"). -/
def inSirius : InputStar :=
  ⟨some 32349, "", "", -1.44, none, 101, -16, .nan, .nan, none, "cma", true, false⟩

/-- The catalog built from the one-row Sirius stream. -/
def catSirius : Catalog := Catalog.build 4 100000 (stars 9 [inSirius])

/-- A one-record example store. -/
def catEx : Catalog := Catalog.build 4 100000 [stA]

/-- Exact-match predicate on the example store: `hip = 101`. -/
def pEx : StoredStar → Bool := fun t => decide (t.star.hip = some 101)

/-! ## Witnesses -/

/-- Witness for C10: a magnitude-9 record at limiting magnitude 9, preceded
by one rejected record, is accepted and emitted with `pk = 1`. -/
theorem boundary_magnitude_accepted_witness :
    accepts 9 bIn = true ∧
    mkStar ((([rejIn].filter (accepts 9)).length) + 1) bIn ∈
      stars 9 ([rejIn] ++ bIn :: []) :=
  boundary_magnitude_accepted 9 bIn [rejIn] [] rfl rfl rfl

/-- Witness for C5: a two-record build with `row_group_size = 1` produces
two row groups whose boundary statistics satisfy the invariant. -/
theorem rowgroups_monotone_witness :
    skLe (sortKey (attachIndex 4 stA)) (sortKey (attachIndex 4 stB)) :=
  rowgroups_monotone 4 1 [stA, stB] 0 [attachIndex 4 stA] [attachIndex 4 stB]
    (sortKey (attachIndex 4 stA)) (sortKey (attachIndex 4 stB))
    rfl rfl rfl rfl

/-- Witness for C6: on the one-record example store, `get` with the
`hip = 101` predicate returns the first (only) match. -/
theorem get_first_match_witness :
    ∃ t l₁ l₂, Star.get catEx pEx = some t ∧ pEx t = true ∧
      Star.all catEx = l₁ ++ t :: l₂ ∧ (∀ u ∈ l₁, pEx u = false) ∧
      Star.get catEx pEx = Star.get catEx pEx :=
  get_first_match catEx pEx
    ⟨attachIndex 4 stA, show _ ∈ [attachIndex 4 stA] from List.mem_singleton.mpr rfl, rfl⟩

/-- Witness for C8 (amended) at concrete inputs: appending one rejected
record to a one-record stream leaves the report unchanged. -/
theorem report_accepted_duration_witness :
    buildReport 9 ([inA] ++ [rejIn]) 5 = buildReport 9 [inA] 5 ∧
    (buildReport 9 [inA] 5).acceptedTotal = (stars 9 [inA]).length ∧
    (buildReport 9 [inA] 5).durationSecs = 5 :=
  report_accepted_duration 9 [inA] [rejIn] 5 (by decide)

/-- Counterexample to C8 as stated: the user-visible summary is identical
for an empty input and for an input whose single record is rejected, so the
total rejected count (1 vs 0) is not reported by the build. -/
theorem report_omits_rejected :
    rejectedCount 9 [rejIn] = 1 ∧ rejectedCount 9 ([] : List InputStar) = 0 ∧
    buildReport 9 [rejIn] 5 = buildReport 9 ([] : List InputStar) 5 := by
  refine ⟨by decide, rfl, by decide⟩

/-- Witness for C9: the one-row Sirius stream builds successfully and the
assertions hold on the built catalog. -/
theorem build_sirius_assertions_witness :
    ∃ t, getByName catSirius "Sirius" = some t ∧ t.star.magnitude = -1.44 ∧
      t.star.hip = some 32349 ∧ t.star.constellation_id = "cma" :=
  build_sirius_assertions 9 1 [inSirius] catSirius (by
    norm_num [build_magnitude, stars, starsAux, rejects, inSirius, mkStar, pyOrZero, PyFloat.isTruthy,
      Catalog.build, Star.all, attachIndex, getByName, nameToHip, Star.get,
      List.find?, List.insertionSort, List.orderedInsert, catSirius])

end BigSky
